import Mathlib

/-!
Shallow embedding of the Codex review-workflow core
(`src/Codex/graph/state.py`, `src/Codex/graph/workflow.py` and the agent
step functions) together with theorems settling the frozen claims about
its routing, flag and report-synthesis behaviour.

Conventions of the embedding:
* Python `Optional[str]` fields become `Option String`; Python truthiness
  of such a field (`if not state.repo_url`) is `pyTruthy` below, which is
  false for both `None` and the empty string.
* Each step function's interaction with an external collaborator (LLM,
  Jira, Slack, git) is parametrised by an explicit outcome value; the
  state transformation performed for each outcome is transcribed from the
  source's try/except structure, including which mutations happen before
  a raising call.
* Dictionaries produced by the code (`review_report`, findings, issues)
  are modelled by structures carrying exactly the keys the core reads;
  an `Option` field is `none` when the key is absent.
-/

/-- Python truthiness of an `Optional[str]`: `None` and `""` are falsy. -/
def pyTruthy : Option String → Bool
  | none => false
  | some v => !(v == "")

/-- One element of an `issues` list inside a finding
(the code reads only the `severity` key and, for messages, `line`). -/
structure Issue where
  severity : Option String := none
  line : Option Int := none
  deriving Repr, DecidableEq

/-- One per-file finding as read by `generate_report`,
`update_slack_results` and produced by `deep_code_review`:
`file`, `score`, `issues`, `line_by_line_analysis`, `strengths`,
`improvements`, plus the raw `analysis` text of the parse-failure
placeholder. An `Option`/`[]` default models an absent key. -/
structure Finding where
  file : Option String := none
  score : Option Int := none
  issues : List Issue := []
  line_by_line_analysis : List (String × String) := []
  analysis : Option String := none
  strengths : List String := []
  improvements : List String := []
  deriving Repr, DecidableEq

/-- Entry of the `detailed_line_by_line` list built by `generate_report`. -/
structure DetailEntry where
  file : Option String := none
  analysis : List (String × String) := []
  deriving Repr, DecidableEq

/-- The `review_report` dictionary: after `deep_code_review` it holds only
the `findings` key; after `generate_report` also the aggregate keys.
Both dictionary shapes are non-empty, hence truthy in Python. -/
structure Report where
  findings : List Finding := []
  overall_score : Option Int := none
  critical_issues_count : Option Nat := none
  high_issues_count : Option Nat := none
  files_reviewed : Option Nat := none
  detailed_line_by_line : List DetailEntry := []
  deriving Repr, DecidableEq

/-- `ReviewState` from `src/Codex/graph/state.py`, field for field. -/
structure ReviewState where
  user_input : String
  user_id : String
  slack_channel : String
  slack_thread_ts : Option String := none
  repo_url : Option String := none
  review_intent : Option String := some "deep_review"
  is_valid_repo : Bool := false
  validation_error : Option String := none
  ask_for_repo : Bool := false
  issue_key : Option String := none
  jira_created : Bool := false
  repo_path : Option String := none
  files_to_review : List String := []
  agent_status : String := "initialized"
  review_report : Option Report := none
  score : Int := 0
  critical_issues : List Issue := []
  high_priority : List Issue := []
  error : Option String := none
  review_started : Bool := false
  deep_reviewed : Bool := false
  report_generated : Bool := false
  jira_updated : Bool := false
  slack_updated : Bool := false
  deriving Repr, DecidableEq

/-- The langgraph terminal sentinel `END` imported by `workflow.py`. -/
def END : String := "__end__"

/-- `route_next_agent` from `src/Codex/graph/workflow.py`: the ordered
guard chain deciding the next node name. -/
def route_next_agent (s : ReviewState) : String :=
  if s.ask_for_repo || !pyTruthy s.repo_url then "ask_repo"
  else if !s.is_valid_repo then "validate_repo"
  else if !s.jira_created then "create_jira"
  else if !pyTruthy s.slack_thread_ts then "notify_slack"
  else if !pyTruthy s.repo_path then "clone_repo"
  else if !s.review_started then "mark_review_in_progress"
  else if !s.deep_reviewed then "deep_review"
  else if !s.report_generated then "generate_report"
  else if !s.jira_updated then "update_jira"
  else if !s.slack_updated then "update_slack"
  else END

/-- Target map of `add_conditional_edges("orchestrator_router", ...)` in
`build_agentic_workflow`: every node name the router edge is wired to. -/
def conditionalRouteTargets : List String :=
  ["ask_repo", "validate_repo", "create_jira", "notify_slack", "clone_repo",
   "mark_review_in_progress", "supervisor_decide", "deep_review",
   "generate_report", "update_jira", "update_slack", END]

/-- ASCII word character of the regex class `[\w\-]` used by both URL
patterns (Python `\w` restricted to ASCII: letters, digits, underscore). -/
def isWordChar (c : Char) : Bool :=
  c.isAlpha || c.isDigit || c == '_' || c == '-'

/-- Strip a literal character sequence from the front of `cs`. -/
def stripLit : List Char → List Char → Option (List Char)
  | [], cs => some cs
  | _, [] => none
  | p :: ps, c :: cs => if c == p then stripLit ps cs else none

/-- Match the `/[\w\-]+/[\w\-]+` tail of the validator pattern. -/
def matchOwnerRepoTail (cs : List Char) : Bool :=
  match cs with
  | '/' :: rest =>
    let seg1 := rest.takeWhile isWordChar
    if seg1.isEmpty then false
    else
      match rest.dropWhile isWordChar with
      | '/' :: rest2 => !(rest2.takeWhile isWordChar).isEmpty
      | _ => false
  | _ => false

/-- `re.match` of `validate_repo`'s pattern
`https?://(github\.com|gitlab\.com)/[\w\-]+/[\w\-]+` (anchored at the
start of the string, arbitrary trailing text allowed). -/
def validRepoUrlMatch (s : String) : Bool :=
  match stripLit "http".toList s.toList with
  | none => false
  | some cs0 =>
    let cs1 := match cs0 with
      | 's' :: rest => rest
      | _ => cs0
    match stripLit "://".toList cs1 with
    | none => false
    | some cs2 =>
      match stripLit "github.com".toList cs2 with
      | some cs3 => matchOwnerRepoTail cs3
      | none =>
        match stripLit "gitlab.com".toList cs2 with
        | some cs3 => matchOwnerRepoTail cs3
        | none => false

/-- Match `parse_user_input`'s fallback pattern
`https://github\.com/[\w\-]+/[\w\-]+` at the head of `cs`, returning the
matched text (greedy segments, as in the regex). -/
def matchGithubAt (cs : List Char) : Option (List Char) :=
  match stripLit "https://github.com/".toList cs with
  | none => none
  | some rest =>
    let seg1 := rest.takeWhile isWordChar
    if seg1.isEmpty then none
    else
      match rest.dropWhile isWordChar with
      | '/' :: rest2 =>
        let seg2 := rest2.takeWhile isWordChar
        if seg2.isEmpty then none
        else some ("https://github.com/".toList ++ seg1 ++ '/' :: seg2)
      | _ => none

/-- Leftmost occurrence, as found by `re.search`. -/
def searchFrom : List Char → Option (List Char)
  | [] => none
  | c :: cs =>
    match matchGithubAt (c :: cs) with
    | some m => some m
    | none => searchFrom cs

/-- `re.search(r'https://github\.com/[\w\-]+/[\w\-]+', text)` with the
matched text extracted, as in the parser's JSON-decode-failure fallback. -/
def searchGithubUrl (s : String) : Option String :=
  (searchFrom s.toList).map (fun cs => String.mk cs)

/-! ### External-collaborator outcomes

Each step talks to an external collaborator inside try/except blocks; the
outcome type of a step enumerates the distinguishable ways those calls can
end, so that theorems quantify over every failure pattern. -/

/-- Outcome of the parser's LLM call plus `json.loads` boundary:
the decoded dictionary's two fields, a `JSONDecodeError`, or any other
exception (message as rendered by `str(e)`). -/
inductive ParseOut where
  | goodJson (repo_url : Option String) (review_intent : Option String)
  | badJson
  | raises (msg : String)
  deriving Repr, DecidableEq

/-- Outcome of `create_jira_issue`'s external calls: issue created and
initial comment posted, issue created but the follow-up comment raised
(caught by the same outer handler, after the flag was already set), or a
raise before/at `create_issue` (LLM errors included). -/
inductive JiraCreateOut where
  | ok (key : String)
  | okCommentFail (key : String) (msg : String)
  | fail (msg : String)
  deriving Repr, DecidableEq

/-- Outcome of `notify_slack_start`: first `chat_postMessage` succeeded
(thread timestamp `ts`) with the threaded follow-up succeeding or
raising, or the first post itself raised. -/
inductive SlackNotifyOut where
  | ok (ts : String)
  | okThreadFail (ts : String) (msg : String)
  | postFail (msg : String)
  deriving Repr, DecidableEq

/-- Outcome of `clone_and_analyze`: temp-directory creation failed, the
clone raised, or the clone succeeded yielding the temp directory and the
discovered `*.py` files (the Jira/Slack progress posts inside are caught
locally and change no state). -/
inductive CloneOut where
  | mkdirFail (msg : String)
  | cloneFail (msg : String)
  | ok (dir : String) (pyFiles : List String)
  deriving Repr, DecidableEq

/-- Outcome of `mark_review_in_progress`'s Jira block: the whole block ran
(whether or not a matching transition existed), or some call in it raised
before `state.review_started = True` was reached. -/
inductive MarkOut where
  | ok
  | fail (msg : String)
  deriving Repr, DecidableEq

/-- Outcome of `supervisor_decide`'s LLM call: decoded plan (with the
`files_to_review` key present or absent), a `JSONDecodeError`, or any
other exception. -/
inductive SupOut where
  | okFiles (files : Option (List String))
  | badJson
  | fail (msg : String)
  deriving Repr, DecidableEq

/-- Per-file outcome inside `deep_code_review`'s loop: the file read
raised, or the LLM response decoded to a finding, or `json.loads` failed
on the raw response text. -/
inductive FileRev where
  | readFail
  | decoded (f : Finding)
  | decodeFail (raw : String)
  deriving Repr, DecidableEq

/-- Outcome of `update_jira_results`' try block (the posting sequence;
`save_and_attach_json_report` and `transition_to_status` catch their own
errors and change no state). -/
inductive UpdateJiraOut where
  | ok
  | fail (msg : String)
  deriving Repr, DecidableEq

/-- Outcome of `update_slack_results`' try block. -/
inductive UpdateSlackOut where
  | ok
  | fail (msg : String)
  deriving Repr, DecidableEq

/-- Bundle of one outcome per externally-interacting step, fixing the
behaviour of every collaborator for one Router/Step cycle. -/
structure Effects where
  parse : ParseOut
  jiraCreate : JiraCreateOut
  slackNotify : SlackNotifyOut
  clone : CloneOut
  mark : MarkOut
  supervisor : SupOut
  fileReview : String → FileRev
  jiraUpdate : UpdateJiraOut
  slackUpdate : UpdateSlackOut

/-! ### Step functions -/

/-- `parse_user_input` from `src/Codex/agents/parser_agent.py`. -/
def parse_user_input (o : ParseOut) (s : ReviewState) : ReviewState :=
  match o with
  | .goodJson ru ri =>
    let s1 := { s with repo_url := ru }
    let intent := if !pyTruthy ri || ri == some "null" then "deep_review" else ri.getD ""
    let s2 := { s1 with review_intent := some intent }
    let s3 :=
      if !pyTruthy s2.repo_url || s2.repo_url == some "null" then
        { s2 with ask_for_repo := true }
      else s2
    { s3 with agent_status := "parsed" }
  | .badJson =>
    match searchGithubUrl s.user_input with
    | some url =>
      { s with repo_url := some url, review_intent := some "deep_review",
               agent_status := "parsed" }
    | none =>
      { s with ask_for_repo := true, error := some "Could not extract repository URL" }
  | .raises msg => { s with error := some msg }

/-- `validate_repo` from `src/Codex/agents/validator_agent.py`. -/
def validate_repo (s : ReviewState) : ReviewState :=
  if !pyTruthy s.repo_url || s.ask_for_repo then
    { s with ask_for_repo := true, agent_status := "awaiting_repo_input" }
  else if !validRepoUrlMatch (s.repo_url.getD "") then
    { s with validation_error := some ("Invalid URL: " ++ s.repo_url.getD ""),
             ask_for_repo := true, agent_status := "awaiting_repo_input" }
  else
    { s with is_valid_repo := true, agent_status := "validated" }

/-- `create_jira_issue` from `src/Codex/agents/jira_creator_agent.py`.
The generated summary/description/labels only feed the Jira payload, so
they do not appear in the state transformation. -/
def create_jira_issue (o : JiraCreateOut) (s : ReviewState) : ReviewState :=
  if !s.is_valid_repo then
    { s with error := some "Cannot create issue without valid repo" }
  else
    match o with
    | .ok key =>
      { s with issue_key := some key, jira_created := true,
               agent_status := "jira_created" }
    | .okCommentFail key msg =>
      { s with issue_key := some key, jira_created := true,
               agent_status := "jira_created",
               error := some ("Jira creation failed: " ++ msg) }
    | .fail msg => { s with error := some ("Jira creation failed: " ++ msg) }

/-- `notify_slack_start` from `src/Codex/agents/slack_notifier_agent.py`. -/
def notify_slack_start (o : SlackNotifyOut) (s : ReviewState) : ReviewState :=
  match o with
  | .ok ts =>
    { s with slack_thread_ts := some ts, agent_status := "slack_notified" }
  | .okThreadFail ts msg =>
    { s with slack_thread_ts := some ts, agent_status := "slack_notified",
             error := some ("Slack error: " ++ msg) }
  | .postFail msg => { s with error := some ("Slack error: " ++ msg) }

/-- `clone_and_analyze` from `src/Codex/agents/code_clone_agent.py`. -/
def clone_and_analyze (o : CloneOut) (s : ReviewState) : ReviewState :=
  match o with
  | .mkdirFail msg =>
    { s with error := some ("Failed to create temp directory: " ++ msg) }
  | .cloneFail msg =>
    { s with error := some ("Repository clone failed: " ++ msg) }
  | .ok dir pyFiles =>
    { s with repo_path := some dir, files_to_review := pyFiles.take 20,
             agent_status := "repo_cloned" }

/-- `mark_review_in_progress` from `src/Codex/graph/workflow.py`: on any
exception inside the try block only a warning is logged — the state is
returned unchanged, `review_started` stays false and no error is
recorded. -/
def mark_review_in_progress (o : MarkOut) (s : ReviewState) : ReviewState :=
  match o with
  | .ok => { s with review_started := true, agent_status := "review_in_progress" }
  | .fail _ => s

/-- `supervisor_decide` from `src/Codex/agents/supervisor_agent.py`. -/
def supervisor_decide (o : SupOut) (s : ReviewState) : ReviewState :=
  if s.files_to_review.isEmpty then
    { s with error := some "No Python files to review" }
  else
    match o with
    | .okFiles files =>
      { s with files_to_review := files.getD (s.files_to_review.take 3),
               agent_status := "supervisor_decided" }
    | .badJson =>
      { s with files_to_review := s.files_to_review.take 3,
               agent_status := "supervisor_decided" }
    | .fail _ => { s with agent_status := "supervisor_decided" }

/-- The placeholder finding `{"file": file_path, "score": 70,
"analysis": result}` appended on a JSON decode failure in
`deep_code_review`. -/
def placeholderFinding (fp raw : String) : Finding :=
  { file := some fp, score := some 70, analysis := some raw }

/-- Contribution of one reviewed file to the findings list: nothing if
the read raised, the decoded finding, or the placeholder. -/
def reviewOneFile (env : String → FileRev) (fp : String) : Option Finding :=
  match env fp with
  | .readFail => none
  | .decoded f => some f
  | .decodeFail raw => some (placeholderFinding fp raw)

/-- `deep_code_review` from `src/Codex/agents/code_review_agent.py`. -/
def deep_code_review (env : String → FileRev) (s : ReviewState) : ReviewState :=
  if s.files_to_review.isEmpty || !pyTruthy s.repo_path then
    { s with error := some "No files to review" }
  else
    { s with review_report := some { findings := s.files_to_review.filterMap (reviewOneFile env) },
             agent_status := "code_reviewed" }

/-- The `deep_review` node of `build_agentic_workflow`: wraps
`deep_code_review` and sets the flag and status unconditionally. -/
def deep_review_wrapper (env : String → FileRev) (s : ReviewState) : ReviewState :=
  let r := deep_code_review env s
  { r with deep_reviewed := true, agent_status := "code_reviewed" }

/-- `f.get("score", 70)`: score of a finding with the synthesizer's
default. -/
def pyGetScore (f : Finding) : Int := f.score.getD 70

/-- Python `int(a / n)` for integer `a` and positive `n`: division
truncated toward zero (expressed through `Nat` division, on which all
division conventions agree). This models the source's float mean exactly
for the integer scores the report carries. -/
def pyIntDiv (a : Int) (n : Nat) : Int :=
  if 0 ≤ a then ((a.toNat / n : Nat) : Int) else -(((-a).toNat / n : Nat) : Int)

/-- `generate_report` from `src/Codex/agents/report_generator_agent.py`. -/
def generate_report (s : ReviewState) : ReviewState :=
  match s.review_report with
  | none => { s with error := some "No review findings" }
  | some r =>
    let findings := r.findings
    if findings.isEmpty then { s with error := some "No findings" }
    else
      let scores := findings.map pyGetScore
      let score := pyIntDiv scores.sum scores.length
      let critical := findings.flatMap
        (fun f => f.issues.filter (fun i => i.severity == some "critical"))
      let high := findings.flatMap
        (fun f => f.issues.filter (fun i => i.severity == some "high"))
      let detailed := (findings.filter (fun f => !f.line_by_line_analysis.isEmpty)).map
        (fun f => ({ file := f.file, analysis := f.line_by_line_analysis } : DetailEntry))
      { s with
          score := score,
          critical_issues := critical,
          high_priority := high,
          review_report := some
            { findings := findings,
              overall_score := some score,
              critical_issues_count := some critical.length,
              high_issues_count := some high.length,
              files_reviewed := some findings.length,
              detailed_line_by_line := detailed },
          agent_status := "report_generated" }

/-- The `generate_report` node of `build_agentic_workflow`: wraps
`generate_report` and sets `report_generated` unconditionally — also on
the early-error returns of `generate_report`. -/
def generate_report_wrapper (s : ReviewState) : ReviewState :=
  let r := generate_report s
  { r with report_generated := true }

/-- `update_jira_results` from `src/Codex/agents/jira_updater_agent.py`. -/
def update_jira_results (o : UpdateJiraOut) (s : ReviewState) : ReviewState :=
  if !pyTruthy s.issue_key || s.review_report.isNone then
    { s with agent_status := "jira_update_skipped" }
  else
    match o with
    | .ok => { s with agent_status := "jira_updated" }
    | .fail msg =>
      { s with error := some ("Jira update failed: " ++ msg),
               agent_status := "jira_update_failed" }

/-- The `update_jira` node of `build_agentic_workflow`: runs
`update_jira_results`, attempts the "Done" transition (caught locally, no
state change), then sets `jira_updated` unconditionally. -/
def update_jira_wrapper (o : UpdateJiraOut) (s : ReviewState) : ReviewState :=
  let r := update_jira_results o s
  { r with jira_updated := true }

/-- `update_slack_results` from `src/Codex/agents/slack_updater_agent.py`.
Note that no branch assigns `slack_updated`. -/
def update_slack_results (o : UpdateSlackOut) (s : ReviewState) : ReviewState :=
  if !pyTruthy s.slack_thread_ts then { s with agent_status := "slack_update_skipped" }
  else if s.review_report.isNone then { s with agent_status := "slack_update_skipped" }
  else
    match o with
    | .ok => { s with agent_status := "slack_updated" }
    | .fail msg =>
      { s with error := some ("Slack update failed: " ++ msg),
               agent_status := "slack_update_failed" }

/-- Dispatch from a node name (as produced by `route_next_agent` and wired
in `build_agentic_workflow`) to the node's state transformation; the
`ask_repo` node is the identity `lambda s: s`. -/
def applyStep (name : String) (e : Effects) (s : ReviewState) : ReviewState :=
  if name = "parse_input" then parse_user_input e.parse s
  else if name = "validate_repo" then validate_repo s
  else if name = "ask_repo" then s
  else if name = "create_jira" then create_jira_issue e.jiraCreate s
  else if name = "notify_slack" then notify_slack_start e.slackNotify s
  else if name = "clone_repo" then clone_and_analyze e.clone s
  else if name = "mark_review_in_progress" then mark_review_in_progress e.mark s
  else if name = "supervisor_decide" then supervisor_decide e.supervisor s
  else if name = "deep_review" then deep_review_wrapper e.fileReview s
  else if name = "generate_report" then generate_report_wrapper s
  else if name = "update_jira" then update_jira_wrapper e.jiraUpdate s
  else if name = "update_slack" then update_slack_results e.slackUpdate s
  else s

/-- The guard-satisfied condition of a routable step: true when the
Router's guard for that step no longer fires (the "flag" of the spec's
idempotent-resumption property). -/
def flagFor (name : String) (s : ReviewState) : Bool :=
  if name = "ask_repo" then !s.ask_for_repo && pyTruthy s.repo_url
  else if name = "validate_repo" then s.is_valid_repo
  else if name = "create_jira" then s.jira_created
  else if name = "notify_slack" then pyTruthy s.slack_thread_ts
  else if name = "clone_repo" then pyTruthy s.repo_path
  else if name = "mark_review_in_progress" then s.review_started
  else if name = "deep_review" then s.deep_reviewed
  else if name = "generate_report" then s.report_generated
  else if name = "update_jira" then s.jira_updated
  else if name = "update_slack" then s.slack_updated
  else true

/-- The issue-creation call of `create_jira_issue` succeeded (the
follow-up comment may still have failed). -/
def jiraCreateOk : JiraCreateOut → Bool
  | .ok _ => true
  | .okCommentFail _ _ => true
  | .fail _ => false

/-- The first `chat_postMessage` of `notify_slack_start` succeeded and
returned a non-empty thread timestamp. -/
def slackNotifyOk : SlackNotifyOut → Bool
  | .ok ts => !(ts == "")
  | .okThreadFail ts _ => !(ts == "")
  | .postFail _ => false

/-- The clone of `clone_and_analyze` succeeded, with the non-empty
temp-directory path `mkdtemp` returns. -/
def cloneOk : CloneOut → Bool
  | .ok dir _ => !(dir == "")
  | _ => false

/-- The Jira block of `mark_review_in_progress` ran to completion. -/
def markOk : MarkOut → Bool
  | .ok => true
  | .fail _ => false

/-- The six monotone completion flags of the State Record: `t` keeps every
one of them that is set in `s`. -/
def monotoneFlags (s t : ReviewState) : Prop :=
  (s.jira_created = true → t.jira_created = true) ∧
  (s.review_started = true → t.review_started = true) ∧
  (s.deep_reviewed = true → t.deep_reviewed = true) ∧
  (s.report_generated = true → t.report_generated = true) ∧
  (s.jira_updated = true → t.jira_updated = true) ∧
  (s.slack_updated = true → t.slack_updated = true)

/-- The file's content was read successfully inside `deep_code_review`. -/
def wasRead (env : String → FileRev) (fp : String) : Bool :=
  match env fp with
  | .readFail => false
  | _ => true

/-- The finding a successfully-read file contributes: the decoded one, or
the placeholder on a JSON decode failure. -/
def recoverFinding (env : String → FileRev) (fp : String) : Finding :=
  match env fp with
  | .decoded f => f
  | .decodeFail raw => placeholderFinding fp raw
  | .readFail => placeholderFinding fp ""

/-- Modelled from the spec: the Workflow Engine loop of section 4.2 is
not code of this repository — `build_agentic_workflow` delegates it to the
external langgraph runtime (`workflow.compile()` / `graph.invoke` and its
recursion-limit guard, exercised by `test_cli.py`). Modelled as a fuelled
Router → Step → Router loop over the source's `route_next_agent` that
fails with a fatal iteration-exceeded error when the configured ceiling
is exhausted. -/
def runEngine (stepOf : String → ReviewState → ReviewState) :
    Nat → ReviewState → Except String ReviewState
  | 0, _ => .error "Recursion limit exceeded"
  | n + 1, s =>
    if route_next_agent s = END then .ok s
    else runEngine stepOf n (stepOf (route_next_agent s) s)

/-! ### Concrete example values used by witnesses and counterexamples -/

/-- A fresh State Record as `test_cli.py` constructs it. -/
def initState : ReviewState :=
  { user_input := "please review", user_id := "cli_test_user", slack_channel := "C12345678" }

/-- A deliberately stuck Step Function: never advances any flag. -/
def stuckStep : String → ReviewState → ReviewState := fun _ t => t

/-- Every external call succeeds. -/
def okEffects : Effects :=
  { parse := .goodJson (some "https://github.com/acme/widget") (some "deep_review"),
    jiraCreate := .ok "AI-7",
    slackNotify := .ok "171.001",
    clone := .ok "/tmp/repo" ["a.py"],
    mark := .ok,
    supervisor := .okFiles (some ["a.py"]),
    fileReview := fun _ => .decoded { file := some "a.py", score := some 80 },
    jiraUpdate := .ok,
    slackUpdate := .ok }

/-- Every external call fails. -/
def failEffects : Effects :=
  { parse := .raises "boom",
    jiraCreate := .fail "503",
    slackNotify := .postFail "503",
    clone := .cloneFail "503",
    mark := .fail "503",
    supervisor := .fail "503",
    fileReview := fun _ => .readFail,
    jiraUpdate := .fail "503",
    slackUpdate := .fail "503" }

/-- A state about to create the Jira ticket. -/
def createJiraState : ReviewState :=
  { user_input := "review https://github.com/acme/widget", user_id := "u1",
    slack_channel := "C1", repo_url := some "https://github.com/acme/widget",
    is_valid_repo := true }

/-- A state about to mark the review in progress. -/
def markReadyState : ReviewState :=
  { createJiraState with
    issue_key := some "AI-7", jira_created := true,
    slack_thread_ts := some "171.001", repo_path := some "/tmp/repo",
    files_to_review := ["a.py"] }

/-- A state about to run the deep review on two files. -/
def deepReviewState : ReviewState :=
  { markReadyState with files_to_review := ["a.py", "b.py"], review_started := true }

/-- A state about to synthesize the report from an empty findings list. -/
def emptyFindState : ReviewState :=
  { markReadyState with
    review_started := true, deep_reviewed := true,
    review_report := some { findings := [] } }

/-- A report with per-file scores 80 and 81. -/
def twoScoreReport : Report :=
  { findings := [{ score := some 80 }, { score := some 81 }] }

/-- A state about to synthesize the report from scores 80 and 81. -/
def twoScoreState : ReviewState :=
  { emptyFindState with review_report := some twoScoreReport }

/-- A state about to publish results to chat (everything else done). -/
def publishChatState : ReviewState :=
  { emptyFindState with
    review_report := some { findings := [{ file := some "a.py", score := some 80 }] },
    report_generated := true, jira_updated := true }

/-- Per-file review outcomes: `a.py` gets an undecodable response,
anything else fails to read. -/
def reviewEnvEx : String → FileRev :=
  fun fp => if fp = "a.py" then .decodeFail "raw text" else .readFail

/-! ### Theorems -/

/-- Spec-side router: the strictly ordered guard list of spec section 4.1,
first true guard wins, `END` otherwise. -/
def firstTrue : List ((ReviewState → Bool) × String) → ReviewState → String
  | [], _ => END
  | g :: rest, s => if g.1 s then g.2 else firstTrue rest s

/-- The spec's ordered guard table (request input; validate; create
ticket; start chat thread; clone; mark in progress; analyze; synthesize;
publish to ticket; publish to chat). -/
def routerTable : List ((ReviewState → Bool) × String) :=
  [(fun s => s.ask_for_repo || !pyTruthy s.repo_url, "ask_repo"),
   (fun s => !s.is_valid_repo, "validate_repo"),
   (fun s => !s.jira_created, "create_jira"),
   (fun s => !pyTruthy s.slack_thread_ts, "notify_slack"),
   (fun s => !pyTruthy s.repo_path, "clone_repo"),
   (fun s => !s.review_started, "mark_review_in_progress"),
   (fun s => !s.deep_reviewed, "deep_review"),
   (fun s => !s.report_generated, "generate_report"),
   (fun s => !s.jira_updated, "update_jira"),
   (fun s => !s.slack_updated, "update_slack")]

/-- C4: the Router is a pure total function that evaluates its guards in
the fixed order of the spec and returns the step bound to the first true
guard, and it returns the terminal signal exactly when every completion
condition holds. -/
theorem spec_C4 (s : ReviewState) :
    route_next_agent s = firstTrue routerTable s ∧
    (route_next_agent s = END ↔
      (s.ask_for_repo = false ∧ pyTruthy s.repo_url = true ∧
       s.is_valid_repo = true ∧ s.jira_created = true ∧
       pyTruthy s.slack_thread_ts = true ∧ pyTruthy s.repo_path = true ∧
       s.review_started = true ∧ s.deep_reviewed = true ∧
       s.report_generated = true ∧ s.jira_updated = true ∧
       s.slack_updated = true)) := by
  constructor
  · rfl
  · constructor
    · intro h
      unfold route_next_agent at h
      by_cases h1 : (s.ask_for_repo || !pyTruthy s.repo_url) = true
      · rw [if_pos h1] at h; exact absurd h (by decide)
      rw [if_neg h1] at h
      by_cases h2 : (!s.is_valid_repo) = true
      · rw [if_pos h2] at h; exact absurd h (by decide)
      rw [if_neg h2] at h
      by_cases h3 : (!s.jira_created) = true
      · rw [if_pos h3] at h; exact absurd h (by decide)
      rw [if_neg h3] at h
      by_cases h4 : (!pyTruthy s.slack_thread_ts) = true
      · rw [if_pos h4] at h; exact absurd h (by decide)
      rw [if_neg h4] at h
      by_cases h5 : (!pyTruthy s.repo_path) = true
      · rw [if_pos h5] at h; exact absurd h (by decide)
      rw [if_neg h5] at h
      by_cases h6 : (!s.review_started) = true
      · rw [if_pos h6] at h; exact absurd h (by decide)
      rw [if_neg h6] at h
      by_cases h7 : (!s.deep_reviewed) = true
      · rw [if_pos h7] at h; exact absurd h (by decide)
      rw [if_neg h7] at h
      by_cases h8 : (!s.report_generated) = true
      · rw [if_pos h8] at h; exact absurd h (by decide)
      rw [if_neg h8] at h
      by_cases h9 : (!s.jira_updated) = true
      · rw [if_pos h9] at h; exact absurd h (by decide)
      rw [if_neg h9] at h
      by_cases h10 : (!s.slack_updated) = true
      · rw [if_pos h10] at h; exact absurd h (by decide)
      simp at h1 h2 h3 h4 h5 h6 h7 h8 h9 h10
      exact ⟨h1.1, h1.2, h2, h3, h4, h5, h6, h7, h8, h9, h10⟩
    · rintro ⟨a1, a2, a3, a4, a5, a6, a7, a8, a9, a10, a11⟩
      unfold route_next_agent
      simp [a1, a2, a3, a4, a5, a6, a7, a8, a9, a10, a11]

/-- Every value `route_next_agent` can return: the ten step names of its
guard chain, or `END`. -/
theorem route_next_agent_mem (s : ReviewState) :
    route_next_agent s ∈
      ["ask_repo", "validate_repo", "create_jira", "notify_slack",
       "clone_repo", "mark_review_in_progress", "deep_review",
       "generate_report", "update_jira", "update_slack", END] := by
  unfold route_next_agent
  by_cases h1 : (s.ask_for_repo || !pyTruthy s.repo_url) = true
  · rw [if_pos h1]; simp
  rw [if_neg h1]
  by_cases h2 : (!s.is_valid_repo) = true
  · rw [if_pos h2]; simp
  rw [if_neg h2]
  by_cases h3 : (!s.jira_created) = true
  · rw [if_pos h3]; simp
  rw [if_neg h3]
  by_cases h4 : (!pyTruthy s.slack_thread_ts) = true
  · rw [if_pos h4]; simp
  rw [if_neg h4]
  by_cases h5 : (!pyTruthy s.repo_path) = true
  · rw [if_pos h5]; simp
  rw [if_neg h5]
  by_cases h6 : (!s.review_started) = true
  · rw [if_pos h6]; simp
  rw [if_neg h6]
  by_cases h7 : (!s.deep_reviewed) = true
  · rw [if_pos h7]; simp
  rw [if_neg h7]
  by_cases h8 : (!s.report_generated) = true
  · rw [if_pos h8]; simp
  rw [if_neg h8]
  by_cases h9 : (!s.jira_updated) = true
  · rw [if_pos h9]; simp
  rw [if_neg h9]
  by_cases h10 : (!s.slack_updated) = true
  · rw [if_pos h10]; simp
  rw [if_neg h10]
  simp

/-- C10: although `build_agentic_workflow` wires a conditional edge from
the router node to `supervisor_decide`, `route_next_agent` never returns
that name, so the supervisor node is unreachable through routing. -/
theorem spec_C10 :
    "supervisor_decide" ∈ conditionalRouteTargets ∧
    ∀ s : ReviewState, route_next_agent s ≠ "supervisor_decide" := by
  constructor
  · simp [conditionalRouteTargets]
  · intro s
    have h := route_next_agent_mem s
    simp only [List.mem_cons, List.not_mem_nil, or_false] at h
    rcases h with h | h | h | h | h | h | h | h | h | h | h <;> rw [h] <;> decide

/-- C5: the Workflow Engine bounds Router/Step iterations by a fixed
ceiling: if the step selected for `s` never advances the state (a Step
Function that never sets its completion flag), the engine halts with the
fatal iteration-exceeded error within any configured ceiling, instead of
looping forever. -/
theorem spec_C5 (stepOf : String → ReviewState → ReviewState)
    (fuel : Nat) (s : ReviewState) (name : String)
    (hsel : route_next_agent s = name) (hne : name ≠ END)
    (hstuck : ∀ t, route_next_agent t = name → stepOf name t = t) :
    runEngine stepOf fuel s = .error "Recursion limit exceeded" := by
  induction fuel with
  | zero => rfl
  | succ n ih =>
    unfold runEngine
    rw [hsel, if_neg hne, hstuck s hsel]
    exact ih

/-- Witness for C5: a fresh CLI state driven by a completely stuck step
hits the iteration-exceeded error at langgraph's default ceiling of 25. -/
theorem spec_C5_witness :
    runEngine stuckStep 25 initState = .error "Recursion limit exceeded" :=
  spec_C5 stuckStep 25 initState "ask_repo" rfl (by decide) (fun _ _ => rfl)

/-- Counterexample to C1 as stated: on a state whose report carries an
empty findings sequence, the synthesis step (the `generate_report` node,
i.e. the wrapper registered in `build_agentic_workflow`) does set
`last_error`, but it also sets `report_generated` to true — not false as
the claim requires. -/
theorem spec_C1_counterexample :
    route_next_agent emptyFindState = "generate_report" ∧
    (generate_report_wrapper emptyFindState).error = some "No findings" ∧
    (generate_report_wrapper emptyFindState).report_generated = true :=
  ⟨rfl, rfl, rfl⟩

/-- C1 (amended): synthesizing from an empty findings sequence records the
"No findings" error, but the wrapper still sets `report_generated = true`
unconditionally, so the empty-findings failure does not keep the flag
false. -/
theorem spec_C1_amended (s : ReviewState) (r : Report)
    (h1 : s.review_report = some r) (h2 : r.findings = []) :
    (generate_report_wrapper s).error = some "No findings" ∧
    (generate_report_wrapper s).report_generated = true := by
  unfold generate_report_wrapper generate_report
  rw [h1]
  simp [h2]

/-- Witness for C1 (amended) at the concrete empty-findings state. -/
theorem spec_C1_witness :
    (generate_report_wrapper emptyFindState).error = some "No findings" ∧
    (generate_report_wrapper emptyFindState).report_generated = true :=
  spec_C1_amended emptyFindState { findings := [] } rfl rfl

/-- For a non-negative total, `pyIntDiv total n` is the floor (equal to
the truncation) of the rational mean `total / n`: the unique integer `k`
with `k * n ≤ total < (k + 1) * n`. -/
theorem pyIntDiv_floor_bounds (a : Int) (n : Nat) (ha : 0 ≤ a) (hn : 0 < n) :
    pyIntDiv a n * n ≤ a ∧ a < (pyIntDiv a n + 1) * n := by
  unfold pyIntDiv
  rw [if_pos ha]
  obtain ⟨m, rfl⟩ : ∃ m : Nat, a = (m : Int) :=
    ⟨a.toNat, (Int.toNat_of_nonneg ha).symm⟩
  rw [Int.toNat_natCast]
  have h1 : m / n * n ≤ m := Nat.div_mul_le_self m n
  have h2 : m < (m / n + 1) * n := by
    have hdm := Nat.div_add_mod m n
    have hml := Nat.mod_lt m hn
    calc m = n * (m / n) + m % n := (Nat.div_add_mod m n).symm
      _ < n * (m / n) + n := by omega
      _ = (m / n + 1) * n := by ring
  constructor
  · exact_mod_cast h1
  · exact_mod_cast h2

/-- Evaluation of `generate_report` on a state whose report holds a
non-empty findings list: the record the non-error branch constructs. -/
theorem generate_report_some (s : ReviewState) (r : Report)
    (h1 : s.review_report = some r) (hne : r.findings.isEmpty = false) :
    generate_report s =
      { s with
          score := pyIntDiv ((r.findings.map pyGetScore).sum)
            ((r.findings.map pyGetScore).length),
          critical_issues := r.findings.flatMap
            (fun f => f.issues.filter (fun i => i.severity == some "critical")),
          high_priority := r.findings.flatMap
            (fun f => f.issues.filter (fun i => i.severity == some "high")),
          review_report := some
            { findings := r.findings,
              overall_score := some (pyIntDiv ((r.findings.map pyGetScore).sum)
                ((r.findings.map pyGetScore).length)),
              critical_issues_count := some (r.findings.flatMap
                (fun f => f.issues.filter (fun i => i.severity == some "critical"))).length,
              high_issues_count := some (r.findings.flatMap
                (fun f => f.issues.filter (fun i => i.severity == some "high"))).length,
              files_reviewed := some r.findings.length,
              detailed_line_by_line :=
                (r.findings.filter (fun f => !f.line_by_line_analysis.isEmpty)).map
                  (fun f => { file := f.file, analysis := f.line_by_line_analysis }) },
          agent_status := "report_generated" } := by
  unfold generate_report
  rw [h1]
  simp [hne]

/-- C6: for a non-empty findings sequence the synthesized `overall_score`
(also copied into `state.score`) is the per-file-score mean truncated to
an integer — `pyIntDiv` transcribes Python's `int(sum(scores)/len(scores))`
and, for the non-negative totals at stake, is exactly the floor of the
mean by `pyIntDiv_floor_bounds`; scores `[80, 81]` yield 80 (truncation,
not rounding), and a finding without a `score` key contributes the
default 70. -/
theorem spec_C6 (s : ReviewState) (r : Report)
    (h1 : s.review_report = some r) (h2 : r.findings ≠ []) :
    ∃ q : Report,
      (generate_report s).review_report = some q ∧
      q.overall_score = some ((generate_report s).score) ∧
      (generate_report s).score =
        pyIntDiv ((r.findings.map pyGetScore).sum) r.findings.length ∧
      (0 ≤ (r.findings.map pyGetScore).sum →
        pyIntDiv ((r.findings.map pyGetScore).sum) r.findings.length *
            r.findings.length ≤ (r.findings.map pyGetScore).sum ∧
        (r.findings.map pyGetScore).sum <
          (pyIntDiv ((r.findings.map pyGetScore).sum) r.findings.length + 1) *
            r.findings.length) ∧
      (generate_report twoScoreState).score = 80 ∧
      pyGetScore {} = 70 := by
  have hn : 0 < r.findings.length := List.length_pos.mpr h2
  have hne : r.findings.isEmpty = false := by
    simp [List.isEmpty_iff, h2]
  rw [generate_report_some s r h1 hne]
  refine ⟨_, rfl, rfl, ?_, ?_, ?_, rfl⟩
  · simp [List.length_map]
  · intro htot
    exact pyIntDiv_floor_bounds _ _ htot hn
  · decide

/-- Witness for C6: the spec's `[80, 81]` example, synthesized through the
real step on a concrete state. -/
theorem spec_C6_witness :
    (generate_report twoScoreState).score =
      pyIntDiv ((twoScoreReport.findings.map pyGetScore).sum)
        twoScoreReport.findings.length ∧
    (generate_report twoScoreState).score = 80 := by
  obtain ⟨q, hq1, hq2, hq3, hq4, hq5, hq6⟩ :=
    spec_C6 twoScoreState twoScoreReport rfl (by decide)
  exact ⟨hq3, hq5⟩



/-- C8: after the parsing step runs, the review-focus field is never null
or empty — when the decoded focus is missing (`none`), empty, or the
string `"null"`, the step substitutes the default `"deep_review"`; every
other outcome leaves a non-null, non-empty focus in place. -/
theorem spec_C8 (s : ReviewState) (o : ParseOut) (v : String)
    (h1 : s.review_intent = some v) (h2 : v ≠ "") :
    (∃ w, (parse_user_input o s).review_intent = some w ∧ w ≠ "") ∧
    (∀ ru ri, o = ParseOut.goodJson ru ri →
      (ri = none ∨ ri = some "" ∨ ri = some "null") →
      (parse_user_input o s).review_intent = some "deep_review") := by
  cases o with
  | goodJson ru ri =>
    constructor
    · by_cases hc : (!pyTruthy ri || ri == some "null") = true
      · refine ⟨"deep_review", ?_, by decide⟩
        simp only [parse_user_input]
        split <;> simp [hc]
      · have hc2 : (!pyTruthy ri || ri == some "null") = false :=
          Bool.eq_false_iff.mpr hc
        simp only [Bool.or_eq_false_iff, Bool.not_eq_false', beq_eq_false_iff_ne,
          ne_eq] at hc2
        obtain ⟨hp, hnn⟩ := hc2
        obtain ⟨u, hu⟩ : ∃ u, ri = some u := by
          cases ri with
          | none => simp [pyTruthy] at hp
          | some u => exact ⟨u, rfl⟩
        have hune : u ≠ "" := by
          subst hu
          simpa [pyTruthy] using hp
        refine ⟨u, ?_, hune⟩
        have hcf : (!pyTruthy ri || ri == some "null") = false :=
          Bool.eq_false_iff.mpr hc
        simp only [parse_user_input]
        subst hu
        split <;> simp [hcf]
    · intro ru2 ri2 ho hri
      injection ho with hru hri2
      subst hru hri2
      have hc : (!pyTruthy ri || ri == some "null") = true := by
        rcases hri with h | h | h <;> subst h <;> decide
      simp only [parse_user_input]
      split <;> simp [hc]
  | badJson =>
    refine ⟨?_, by intro _ _ h; cases h⟩
    simp only [parse_user_input]
    cases hs : searchGithubUrl s.user_input with
    | none => exact ⟨v, by simp [hs, h1], h2⟩
    | some url => exact ⟨"deep_review", by simp [hs], by decide⟩
  | raises m =>
    exact ⟨⟨v, h1, h2⟩, by intro _ _ h; cases h⟩

/-- Witness for C8: a parser result carrying no `review_intent` key yields
the default focus on a fresh CLI state. -/
theorem spec_C8_witness :
    (parse_user_input
        (ParseOut.goodJson (some "https://github.com/acme/widget") none)
        initState).review_intent = some "deep_review" :=
  (spec_C8 initState
      (ParseOut.goodJson (some "https://github.com/acme/widget") none)
      "deep_review" rfl (by decide)).2
    (some "https://github.com/acme/widget") none rfl (Or.inl rfl)

/-- `filterMap` over per-file outcomes is the per-read-file recovery map:
each successfully read file contributes exactly one finding, in order. -/
theorem filterMap_reviewOneFile (env : String → FileRev) (l : List String) :
    l.filterMap (reviewOneFile env) =
      (l.filter (wasRead env)).map (recoverFinding env) := by
  induction l with
  | nil => rfl
  | cons fp tl ih =>
    simp only [List.filterMap_cons, List.filter_cons]
    cases h : env fp <;>
      simp [reviewOneFile, wasRead, recoverFinding, h, ih]

/-- C9: on a state with files to review and a clone path, the analysis
step produces one finding per successfully read file (in discovery
order); a file whose response fails JSON decoding contributes the
placeholder finding carrying score 70 and the raw response text. -/
theorem spec_C9 (s : ReviewState) (env : String → FileRev)
    (h1 : s.files_to_review ≠ []) (h2 : pyTruthy s.repo_path = true) :
    ∃ fs : List Finding,
      (deep_code_review env s).review_report = some { findings := fs } ∧
      fs = (s.files_to_review.filter (wasRead env)).map (recoverFinding env) ∧
      fs.length = (s.files_to_review.filter (wasRead env)).length ∧
      ∀ fp raw, fp ∈ s.files_to_review → env fp = .decodeFail raw →
        placeholderFinding fp raw ∈ fs ∧
        (placeholderFinding fp raw).score = some 70 ∧
        (placeholderFinding fp raw).analysis = some raw := by
  have hne : s.files_to_review.isEmpty = false := by
    simp [List.isEmpty_iff, h1]
  have hcond : (s.files_to_review.isEmpty || !pyTruthy s.repo_path) = false := by
    simp [hne, h2]
  refine ⟨s.files_to_review.filterMap (reviewOneFile env), ?_, ?_, ?_, ?_⟩
  · unfold deep_code_review
    rw [hcond]
    simp
  · exact filterMap_reviewOneFile env s.files_to_review
  · rw [filterMap_reviewOneFile env s.files_to_review]
    exact List.length_map _ _
  · intro fp raw hmem henv
    refine ⟨?_, rfl, rfl⟩
    rw [filterMap_reviewOneFile env s.files_to_review]
    have hmf : fp ∈ s.files_to_review.filter (wasRead env) :=
      List.mem_filter.mpr ⟨hmem, by simp [wasRead, henv]⟩
    have := List.mem_map_of_mem (recoverFinding env) hmf
    rwa [show recoverFinding env fp = placeholderFinding fp raw by
      simp [recoverFinding, henv]] at this

/-- Witness for C9: two files, one undecodable response and one failed
read, yield exactly the placeholder finding. -/
theorem spec_C9_witness :
    (deep_code_review reviewEnvEx deepReviewState).review_report =
      some { findings := [placeholderFinding "a.py" "raw text"] } := by
  obtain ⟨fs, hrep, hEq, _, _⟩ :=
    spec_C9 deepReviewState reviewEnvEx (by decide) (by decide)
  rw [hrep, hEq]
  rfl

/-- Flag monotonicity is reflexive. -/
theorem monotoneFlags_refl (s : ReviewState) : monotoneFlags s s := by
  unfold monotoneFlags
  exact ⟨id, id, id, id, id, id⟩

/-- `parse_user_input` touches no completion flag. -/
theorem parse_user_input_mono (o : ParseOut) (s : ReviewState) :
    monotoneFlags s (parse_user_input o s) := by
  unfold monotoneFlags
  cases o <;> simp only [parse_user_input] <;> (try split) <;> simp

/-- `validate_repo` touches no completion flag. -/
theorem validate_repo_mono (s : ReviewState) :
    monotoneFlags s (validate_repo s) := by
  unfold monotoneFlags validate_repo
  split <;> (try split) <;> simp

/-- `create_jira_issue` only ever sets `jira_created`. -/
theorem create_jira_issue_mono (o : JiraCreateOut) (s : ReviewState) :
    monotoneFlags s (create_jira_issue o s) := by
  unfold monotoneFlags create_jira_issue
  split <;> (try cases o) <;> simp

/-- `notify_slack_start` touches no completion flag. -/
theorem notify_slack_start_mono (o : SlackNotifyOut) (s : ReviewState) :
    monotoneFlags s (notify_slack_start o s) := by
  unfold monotoneFlags notify_slack_start
  cases o <;> simp

/-- `clone_and_analyze` touches no completion flag. -/
theorem clone_and_analyze_mono (o : CloneOut) (s : ReviewState) :
    monotoneFlags s (clone_and_analyze o s) := by
  unfold monotoneFlags clone_and_analyze
  cases o <;> simp

/-- `mark_review_in_progress` only ever sets `review_started`. -/
theorem mark_review_in_progress_mono (o : MarkOut) (s : ReviewState) :
    monotoneFlags s (mark_review_in_progress o s) := by
  unfold monotoneFlags mark_review_in_progress
  cases o <;> simp

/-- `supervisor_decide` touches no completion flag. -/
theorem supervisor_decide_mono (o : SupOut) (s : ReviewState) :
    monotoneFlags s (supervisor_decide o s) := by
  unfold monotoneFlags supervisor_decide
  split <;> (try cases o) <;> simp

/-- The `deep_review` node only ever sets `deep_reviewed`. -/
theorem deep_review_wrapper_mono (env : String → FileRev) (s : ReviewState) :
    monotoneFlags s (deep_review_wrapper env s) := by
  unfold monotoneFlags deep_review_wrapper deep_code_review
  split <;> simp

/-- The `generate_report` node only ever sets `report_generated`. -/
theorem generate_report_wrapper_mono (s : ReviewState) :
    monotoneFlags s (generate_report_wrapper s) := by
  unfold monotoneFlags generate_report_wrapper generate_report
  cases hrep : s.review_report with
  | none => simp
  | some r => by_cases hb : r.findings = [] <;> simp [hb]

/-- The `update_jira` node only ever sets `jira_updated`. -/
theorem update_jira_wrapper_mono (o : UpdateJiraOut) (s : ReviewState) :
    monotoneFlags s (update_jira_wrapper o s) := by
  unfold monotoneFlags update_jira_wrapper update_jira_results
  split <;> (try cases o) <;> simp

/-- `update_slack_results` touches no completion flag. -/
theorem update_slack_results_mono (o : UpdateSlackOut) (s : ReviewState) :
    monotoneFlags s (update_slack_results o s) := by
  unfold monotoneFlags update_slack_results
  split <;> (try split) <;> (try cases o) <;> simp

/-- C7: every completion flag of the State Record transitions only from
false to true — no node of the workflow graph, on any outcome of its
external calls, ever resets `jira_created`, `review_started`,
`deep_reviewed`, `report_generated`, `jira_updated` or `slack_updated`
back to false. -/
theorem spec_C7 (name : String) (e : Effects) (s : ReviewState) :
    monotoneFlags s (applyStep name e s) := by
  unfold applyStep
  by_cases h1 : name = "parse_input"
  · rw [if_pos h1]; exact parse_user_input_mono e.parse s
  rw [if_neg h1]
  by_cases h2 : name = "validate_repo"
  · rw [if_pos h2]; exact validate_repo_mono s
  rw [if_neg h2]
  by_cases h3 : name = "ask_repo"
  · rw [if_pos h3]; exact monotoneFlags_refl s
  rw [if_neg h3]
  by_cases h4 : name = "create_jira"
  · rw [if_pos h4]; exact create_jira_issue_mono e.jiraCreate s
  rw [if_neg h4]
  by_cases h5 : name = "notify_slack"
  · rw [if_pos h5]; exact notify_slack_start_mono e.slackNotify s
  rw [if_neg h5]
  by_cases h6 : name = "clone_repo"
  · rw [if_pos h6]; exact clone_and_analyze_mono e.clone s
  rw [if_neg h6]
  by_cases h7 : name = "mark_review_in_progress"
  · rw [if_pos h7]; exact mark_review_in_progress_mono e.mark s
  rw [if_neg h7]
  by_cases h8 : name = "supervisor_decide"
  · rw [if_pos h8]; exact supervisor_decide_mono e.supervisor s
  rw [if_neg h8]
  by_cases h9 : name = "deep_review"
  · rw [if_pos h9]; exact deep_review_wrapper_mono e.fileReview s
  rw [if_neg h9]
  by_cases h10 : name = "generate_report"
  · rw [if_pos h10]; exact generate_report_wrapper_mono s
  rw [if_neg h10]
  by_cases h11 : name = "update_jira"
  · rw [if_pos h11]; exact update_jira_wrapper_mono e.jiraUpdate s
  rw [if_neg h11]
  by_cases h12 : name = "update_slack"
  · rw [if_pos h12]; exact update_slack_results_mono e.slackUpdate s
  rw [if_neg h12]
  exact monotoneFlags_refl s

/-- Witness for C7: the already-set `jira_created` flag survives the
publish-to-chat step on a concrete ready state. -/
theorem spec_C7_witness :
    (applyStep "update_slack" okEffects publishChatState).jira_created = true := by
  have h := spec_C7 "update_slack" okEffects publishChatState
  exact h.1 rfl

/-- Dispatch evaluation: the `validate_repo` node. -/
theorem applyStep_validate (e : Effects) (s : ReviewState) :
    applyStep "validate_repo" e s = validate_repo s := rfl

/-- Dispatch evaluation: the `ask_repo` node is the identity. -/
theorem applyStep_ask (e : Effects) (s : ReviewState) :
    applyStep "ask_repo" e s = s := rfl

/-- Dispatch evaluation: the `create_jira` node. -/
theorem applyStep_create_jira (e : Effects) (s : ReviewState) :
    applyStep "create_jira" e s = create_jira_issue e.jiraCreate s := rfl

/-- Dispatch evaluation: the `notify_slack` node. -/
theorem applyStep_notify_slack (e : Effects) (s : ReviewState) :
    applyStep "notify_slack" e s = notify_slack_start e.slackNotify s := rfl

/-- Dispatch evaluation: the `clone_repo` node. -/
theorem applyStep_clone (e : Effects) (s : ReviewState) :
    applyStep "clone_repo" e s = clone_and_analyze e.clone s := rfl

/-- Dispatch evaluation: the `mark_review_in_progress` node. -/
theorem applyStep_mark (e : Effects) (s : ReviewState) :
    applyStep "mark_review_in_progress" e s = mark_review_in_progress e.mark s := rfl

/-- Dispatch evaluation: the `deep_review` node. -/
theorem applyStep_deep_review (e : Effects) (s : ReviewState) :
    applyStep "deep_review" e s = deep_review_wrapper e.fileReview s := rfl

/-- Dispatch evaluation: the `generate_report` node. -/
theorem applyStep_generate_report (e : Effects) (s : ReviewState) :
    applyStep "generate_report" e s = generate_report_wrapper s := rfl

/-- Dispatch evaluation: the `update_jira` node. -/
theorem applyStep_update_jira (e : Effects) (s : ReviewState) :
    applyStep "update_jira" e s = update_jira_wrapper e.jiraUpdate s := rfl

/-- Dispatch evaluation: the `update_slack` node. -/
theorem applyStep_update_slack (e : Effects) (s : ReviewState) :
    applyStep "update_slack" e s = update_slack_results e.slackUpdate s := rfl

/-- A state flagged as needing repository input always routes to
`ask_repo`. -/
theorem route_of_ask (t : ReviewState) (h : t.ask_for_repo = true) :
    route_next_agent t = "ask_repo" := by
  unfold route_next_agent
  rw [if_pos (by simp [h])]

/-- A state already validated never routes back to `validate_repo`. -/
theorem route_ne_validate (t : ReviewState) (h : t.is_valid_repo = true) :
    route_next_agent t ≠ "validate_repo" := by
  unfold route_next_agent
  by_cases h1 : (t.ask_for_repo || !pyTruthy t.repo_url) = true
  · rw [if_pos h1]; decide
  rw [if_neg h1, if_neg (by simp [h])]
  by_cases h3 : (!t.jira_created) = true
  · rw [if_pos h3]; decide
  rw [if_neg h3]
  by_cases h4 : (!pyTruthy t.slack_thread_ts) = true
  · rw [if_pos h4]; decide
  rw [if_neg h4]
  by_cases h5 : (!pyTruthy t.repo_path) = true
  · rw [if_pos h5]; decide
  rw [if_neg h5]
  by_cases h6 : (!t.review_started) = true
  · rw [if_pos h6]; decide
  rw [if_neg h6]
  by_cases h7 : (!t.deep_reviewed) = true
  · rw [if_pos h7]; decide
  rw [if_neg h7]
  by_cases h8 : (!t.report_generated) = true
  · rw [if_pos h8]; decide
  rw [if_neg h8]
  by_cases h9 : (!t.jira_updated) = true
  · rw [if_pos h9]; decide
  rw [if_neg h9]
  by_cases h10 : (!t.slack_updated) = true
  · rw [if_pos h10]; decide
  rw [if_neg h10]
  decide

/-- `update_slack_results` never assigns `slack_updated` on any branch. -/
theorem update_slack_results_keeps_flag (o : UpdateSlackOut) (s : ReviewState) :
    (update_slack_results o s).slack_updated = s.slack_updated := by
  unfold update_slack_results
  split <;> (try split) <;> (try cases o) <;> simp

/-- C2 (amended): after the step the Router selected runs, the Router
never re-selects it for `validate_repo` (on any outcome) nor for
`deep_review`, `generate_report`, `update_jira` (their wrappers set the
guarding flag unconditionally), and not for `create_jira`,
`notify_slack`, `clone_repo`, `mark_review_in_progress` whenever the
step's primary external call succeeds; but the claim fails for the
`ask_repo` node (the identity, which leaves its guard firing) and for
`update_slack` (which never sets `slack_updated`, terminating only
through its direct graph edge to `END`). -/
theorem spec_C2_amended (s : ReviewState) (e : Effects) :
    (route_next_agent s = "validate_repo" →
      route_next_agent (applyStep "validate_repo" e s) ≠ "validate_repo") ∧
    (route_next_agent s = "create_jira" → jiraCreateOk e.jiraCreate = true →
      flagFor "create_jira" (applyStep "create_jira" e s) = true) ∧
    (slackNotifyOk e.slackNotify = true →
      flagFor "notify_slack" (applyStep "notify_slack" e s) = true) ∧
    (cloneOk e.clone = true →
      flagFor "clone_repo" (applyStep "clone_repo" e s) = true) ∧
    (markOk e.mark = true →
      flagFor "mark_review_in_progress"
        (applyStep "mark_review_in_progress" e s) = true) ∧
    (flagFor "deep_review" (applyStep "deep_review" e s) = true) ∧
    (flagFor "generate_report" (applyStep "generate_report" e s) = true) ∧
    (flagFor "update_jira" (applyStep "update_jira" e s) = true) ∧
    (applyStep "ask_repo" e s = s) ∧
    ((applyStep "update_slack" e s).slack_updated = s.slack_updated) := by
  refine ⟨?_, ?_, ?_, ?_, ?_, rfl, rfl, rfl, rfl, ?_⟩
  · -- validate_repo is never re-selected
    intro h
    rw [applyStep_validate]
    have hg : (s.ask_for_repo || !pyTruthy s.repo_url) = false := by
      by_contra hc
      have hg2 : (s.ask_for_repo || !pyTruthy s.repo_url) = true := by
        cases hgg : (s.ask_for_repo || !pyTruthy s.repo_url)
        · exact absurd hgg hc
        · rfl
      have : route_next_agent s = "ask_repo" := by
        unfold route_next_agent
        rw [if_pos hg2]
      rw [h] at this
      exact absurd this (by decide)
    have hask : s.ask_for_repo = false := by
      rcases Bool.or_eq_false_iff.mp hg with ⟨ha, _⟩
      exact ha
    have hurl : pyTruthy s.repo_url = true := by
      rcases Bool.or_eq_false_iff.mp hg with ⟨_, hb⟩
      simpa using hb
    unfold validate_repo
    rw [if_neg (by simp [hask, hurl])]
    by_cases hv : validRepoUrlMatch (s.repo_url.getD "") = true
    · rw [if_neg (by simp [hv])]
      exact route_ne_validate _ rfl
    · rw [if_pos (by simp [Bool.eq_false_iff.mpr hv])]
      rw [route_of_ask _ rfl]
      decide
  · -- create_jira sets its flag when the create call succeeds
    intro h hok
    rw [applyStep_create_jira]
    have hv : s.is_valid_repo = true := by
      by_contra hc
      have hvf : s.is_valid_repo = false := Bool.eq_false_iff.mpr hc
      by_cases hg : (s.ask_for_repo || !pyTruthy s.repo_url) = true
      · have : route_next_agent s = "ask_repo" := by
          unfold route_next_agent
          rw [if_pos hg]
        rw [h] at this
        exact absurd this (by decide)
      · have : route_next_agent s = "validate_repo" := by
          unfold route_next_agent
          rw [if_neg hg, if_pos (by simp [hvf])]
        rw [h] at this
        exact absurd this (by decide)
    show (create_jira_issue e.jiraCreate s).jira_created = true
    unfold create_jira_issue
    rw [if_neg (by simp [hv])]
    cases hj : e.jiraCreate with
    | ok key => rfl
    | okCommentFail key msg => rfl
    | fail msg => rw [hj] at hok; simp [jiraCreateOk] at hok
  · -- notify_slack records a non-empty thread timestamp on success
    intro hok
    rw [applyStep_notify_slack]
    show pyTruthy (notify_slack_start e.slackNotify s).slack_thread_ts = true
    cases hn : e.slackNotify with
    | ok ts =>
      rw [hn] at hok
      simpa [notify_slack_start, pyTruthy, slackNotifyOk] using hok
    | okThreadFail ts msg =>
      rw [hn] at hok
      simpa [notify_slack_start, pyTruthy, slackNotifyOk] using hok
    | postFail msg => rw [hn] at hok; simp [slackNotifyOk] at hok
  · -- clone_repo records a non-empty repository path on success
    intro hok
    rw [applyStep_clone]
    show pyTruthy (clone_and_analyze e.clone s).repo_path = true
    cases hc : e.clone with
    | ok dir pyFiles =>
      rw [hc] at hok
      simpa [clone_and_analyze, pyTruthy, cloneOk] using hok
    | mkdirFail msg => rw [hc] at hok; simp [cloneOk] at hok
    | cloneFail msg => rw [hc] at hok; simp [cloneOk] at hok
  · -- mark_review_in_progress sets its flag when the Jira block runs
    intro hok
    rw [applyStep_mark]
    show (mark_review_in_progress e.mark s).review_started = true
    cases hm : e.mark with
    | ok => rfl
    | fail msg => rw [hm] at hok; simp [markOk] at hok
  · rw [applyStep_update_slack]
    exact update_slack_results_keeps_flag e.slackUpdate s

/-- Counterexample to C2 as stated: on a state where the Router selects
`update_slack`, the step leaves `slack_updated` false (it never assigns
it), so the Router re-selects the very same step and the guarding flag is
not true in the returned state. -/
theorem spec_C2_counterexample :
    route_next_agent publishChatState = "update_slack" ∧
    route_next_agent (applyStep "update_slack" okEffects publishChatState) =
      "update_slack" ∧
    flagFor "update_slack" (applyStep "update_slack" okEffects publishChatState) =
      false := ⟨rfl, rfl, rfl⟩

/-- Witness for C2 (amended): on a concrete state routed to
`create_jira`, the successful step sets the guarding flag, and the
`deep_review` wrapper sets its flag too. -/
theorem spec_C2_witness :
    flagFor "create_jira" (applyStep "create_jira" okEffects createJiraState) = true ∧
    flagFor "deep_review" (applyStep "deep_review" okEffects createJiraState) = true := by
  have h := spec_C2_amended createJiraState okEffects
  exact ⟨h.2.1 rfl rfl, h.2.2.2.2.2.1⟩

/-- C3 (amended): of the five ticket/chat lifecycle steps, only
publish-results-to-ticket (`update_jira`) sets its completion flag on
every invocation. Create-ticket, start-chat-thread and
mark-review-in-progress set their flag (or thread reference) only when
the primary external call succeeds; on failure, create-ticket and
start-chat-thread record an error string and leave the flag unset, while
mark-review-in-progress records nothing at all. Publish-results-to-chat
(`update_slack`) never assigns its completion flag on any outcome. -/
theorem spec_C3_amended (s : ReviewState) (e : Effects) :
    ((applyStep "update_jira" e s).jira_updated = true) ∧
    ((applyStep "update_slack" e s).slack_updated = s.slack_updated) ∧
    (s.is_valid_repo = true → jiraCreateOk e.jiraCreate = true →
      (applyStep "create_jira" e s).jira_created = true) ∧
    (jiraCreateOk e.jiraCreate = false →
      (applyStep "create_jira" e s).jira_created = s.jira_created ∧
      (applyStep "create_jira" e s).error ≠ none) ∧
    (slackNotifyOk e.slackNotify = true →
      pyTruthy (applyStep "notify_slack" e s).slack_thread_ts = true) ∧
    (∀ m, e.slackNotify = .postFail m →
      (applyStep "notify_slack" e s).slack_thread_ts = s.slack_thread_ts ∧
      (applyStep "notify_slack" e s).error ≠ none) ∧
    (markOk e.mark = true →
      (applyStep "mark_review_in_progress" e s).review_started = true) ∧
    (markOk e.mark = false → applyStep "mark_review_in_progress" e s = s) := by
  refine ⟨rfl, ?_, ?_, ?_, ?_, ?_, ?_, ?_⟩
  · rw [applyStep_update_slack]
    exact update_slack_results_keeps_flag e.slackUpdate s
  · -- success path of create_jira
    intro hv hok
    rw [applyStep_create_jira]
    show (create_jira_issue e.jiraCreate s).jira_created = true
    unfold create_jira_issue
    rw [if_neg (by simp [hv])]
    cases hj : e.jiraCreate with
    | ok key => rfl
    | okCommentFail key msg => rfl
    | fail msg => rw [hj] at hok; simp [jiraCreateOk] at hok
  · -- failure path of create_jira
    intro hok
    rw [applyStep_create_jira]
    unfold create_jira_issue
    by_cases hv : (!s.is_valid_repo) = true
    · rw [if_pos hv]
      exact ⟨rfl, by simp⟩
    · rw [if_neg hv]
      cases hj : e.jiraCreate with
      | ok key => rw [hj] at hok; simp [jiraCreateOk] at hok
      | okCommentFail key msg => rw [hj] at hok; simp [jiraCreateOk] at hok
      | fail msg => exact ⟨rfl, by simp⟩
  · -- success path of notify_slack
    intro hok
    rw [applyStep_notify_slack]
    show pyTruthy (notify_slack_start e.slackNotify s).slack_thread_ts = true
    cases hn : e.slackNotify with
    | ok ts =>
      rw [hn] at hok
      simpa [notify_slack_start, pyTruthy, slackNotifyOk] using hok
    | okThreadFail ts msg =>
      rw [hn] at hok
      simpa [notify_slack_start, pyTruthy, slackNotifyOk] using hok
    | postFail msg => rw [hn] at hok; simp [slackNotifyOk] at hok
  · -- failure path of notify_slack
    intro m hm
    rw [applyStep_notify_slack, hm]
    exact ⟨rfl, by simp [notify_slack_start]⟩
  · -- success path of mark_review_in_progress
    intro hok
    rw [applyStep_mark]
    show (mark_review_in_progress e.mark s).review_started = true
    cases hm : e.mark with
    | ok => rfl
    | fail msg => rw [hm] at hok; simp [markOk] at hok
  · -- failure path of mark_review_in_progress
    intro hok
    rw [applyStep_mark]
    cases hm : e.mark with
    | ok => rw [hm] at hok; simp [markOk] at hok
    | fail msg => rfl

/-- Counterexample to C3 as stated: with the Jira call failing, the
mark-review-in-progress step leaves `review_started` false (and records
no error), and the publish-to-chat step leaves `slack_updated` false even
when every Slack call succeeds — two of the five steps do not set their
completion flag on every invocation. -/
theorem spec_C3_counterexample :
    route_next_agent markReadyState = "mark_review_in_progress" ∧
    (applyStep "mark_review_in_progress" failEffects markReadyState).review_started =
      false ∧
    (applyStep "mark_review_in_progress" failEffects markReadyState).error = none ∧
    (applyStep "update_slack" okEffects publishChatState).slack_updated = false :=
  ⟨rfl, rfl, rfl, rfl⟩

/-- Witness for C3 (amended): on a concrete ready state with succeeding
collaborators, create-ticket, start-chat-thread and mark-in-progress all
set their flags. -/
theorem spec_C3_witness :
    (applyStep "create_jira" okEffects markReadyState).jira_created = true ∧
    pyTruthy (applyStep "notify_slack" okEffects markReadyState).slack_thread_ts = true ∧
    (applyStep "mark_review_in_progress" okEffects markReadyState).review_started = true := by
  have h := spec_C3_amended markReadyState okEffects
  exact ⟨h.2.2.1 rfl rfl, h.2.2.2.2.1 rfl, h.2.2.2.2.2.2.1 rfl⟩
